import Mathlib

/-!
Verification of the LekaLink cost-calculator core (src/app.py).

The numeric domain of the Python program is IEEE double; we embed values
exactly as rationals (`ℚ`), with an explicit `PyFloat` type for cell values
that may be NaN or infinite (as produced by `pd.to_numeric(..., errors='coerce')`).
All computations of the program on in-range inputs are exact in this model.
-/

/-- A pandas/Python float cell value: NaN (also covers an absent cell after
`pd.to_numeric` coercion), +inf, -inf, or a finite value. -/
inductive PyFloat where
  | nan : PyFloat
  | inf : PyFloat
  | ninf : PyFloat
  | fin : ℚ → PyFloat
deriving DecidableEq

/-- Complement of `pd.notna` on a cell value. -/
def PyFloat.isNaN : PyFloat → Bool
  | .nan => true
  | _ => false

/-- Model of `math.isfinite`. -/
def PyFloat.isfinite : PyFloat → Bool
  | .fin _ => true
  | _ => false

/-- One row of the loaded price sheet: a `Description` cell (absent when the
cell was NaN) and the `Unit Monthly` cell after `pd.to_numeric` coercion. -/
structure PriceSheetRow where
  description : Option String
  unitMonthly : PyFloat
deriving DecidableEq

/-- Resolved rate table (module-level `VM_RATE`, `STORAGE_RATE_PER_TB`,
`BANDWIDTH_RATE_PER_MBPS` in app.py). Fields live in `ℚ`, so they are finite
and non-NaN by construction of the type. -/
structure RateTable where
  vmRate : ℚ
  storageRatePerTB : ℚ
  bandwidthRatePerMbps : ℚ
deriving DecidableEq

def DEFAULT_VM_RATE : ℚ := 864.35
def DEFAULT_STORAGE_RATE_PER_TB : ℚ := 870.40
def DEFAULT_BANDWIDTH_RATE_PER_MBPS : ℚ := 7.50

/-- The rate table assembled from the three defaults (used when the price
sheet is missing entirely). -/
def defaultRates : RateTable :=
  { vmRate := DEFAULT_VM_RATE
    storageRatePerTB := DEFAULT_STORAGE_RATE_PER_TB
    bandwidthRatePerMbps := DEFAULT_BANDWIDTH_RATE_PER_MBPS }

/-- app.py `coerce_rate`: `float(val)` succeeds on every `PyFloat`; the value
is kept only when finite and `>= 0`, otherwise the default is used. -/
def coerce_rate (val : PyFloat) (dflt : ℚ) : ℚ :=
  match val with
  | .fin v => if 0 ≤ v then v else dflt
  | _ => dflt

/-- Does `pat` lead (start) the list `hay`? (character-list prefix test). -/
def leadsChars : List Char → List Char → Bool
  | [], _ => true
  | _ :: _, [] => false
  | a :: as, b :: bs => a == b && leadsChars as bs

/-- Does `pat` occur contiguously inside the second list? (substring test). -/
def hasSubChars (pat : List Char) : List Char → Bool
  | [] => pat.isEmpty
  | b :: bs => leadsChars pat (b :: bs) || hasSubChars pat bs

/-- Case-insensitive substring test, the semantics of pandas
`str.contains(keyword, case=False)` for the regex-metacharacter-free keywords
of app.py, and of Python `'GB' in desc.upper()`. -/
def containsCI (s kw : String) : Bool :=
  hasSubChars (kw.data.map Char.toLower) (s.data.map Char.toLower)

/-- Semantics of `str.contains('|'.join(kws), na=False, case=False)` on a
`Description` cell: an absent (NaN) description never matches (`na=False`);
otherwise the row matches when any keyword occurs as a case-insensitive
substring. -/
def matchesAny (desc : Option String) (kws : List String) : Bool :=
  match desc with
  | none => false
  | some d => kws.any (fun k => containsCI d k)

def vm_keywords : List String :=
  ["Virtual", "Data Centre", "VDC", "VM", "Resource Pool", "Allocation"]

def storage_keywords : List String :=
  ["Storage", "NVME", "SSD", "vStorage"]

def bandwidth_keywords : List String :=
  ["Bandwidth", "Internet", "Connectivity", "Mbps", "Network"]

/-- app.py `valid`: the `Unit Monthly` cell is not NaN (after `pd.to_numeric`
every cell is a float, so the `isinstance` conjunct is always true). -/
def validRow (r : PriceSheetRow) : Bool :=
  !r.unitMonthly.isNaN

def vm_mask (r : PriceSheetRow) : Bool :=
  matchesAny r.description vm_keywords

def storage_mask (r : PriceSheetRow) : Bool :=
  matchesAny r.description storage_keywords

def bandwidth_mask (r : PriceSheetRow) : Bool :=
  matchesAny r.description bandwidth_keywords

/-- Row selector for the VM category: `vm_mask & valid` in app.py. -/
def vm_pred (r : PriceSheetRow) : Bool :=
  vm_mask r && validRow r

def storage_pred (r : PriceSheetRow) : Bool :=
  storage_mask r && validRow r

def bandwidth_pred (r : PriceSheetRow) : Bool :=
  bandwidth_mask r && validRow r

/-- Model of `price_df[mask & valid]` followed by `.iloc[0]`: boolean-mask
filtering keeps original row order, and `.iloc[0]` takes the head of the
filtered frame (none when the filtered frame is empty). -/
def firstMatch (p : PriceSheetRow → Bool) (rows : List PriceSheetRow) :
    Option PriceSheetRow :=
  (rows.filter p).head?

/-- The rate-resolution block of app.py (lines 66-119): per category, take the
first row matching `mask & valid`, coerce its value with the category default
as fallback; for storage apply the GB→TB correction (`'GB' in desc.upper()`
on `str(...)` of the description — `str(nan)` is the string "nan" — and
coerced price `< 50` means multiply by 1024), then re-coerce; finally the
"final safety" coercion is applied to all three rates. -/
def resolveRates (rows : List PriceSheetRow) : RateTable :=
  let vmR : ℚ :=
    match firstMatch vm_pred rows with
    | some r => coerce_rate r.unitMonthly DEFAULT_VM_RATE
    | none => DEFAULT_VM_RATE
  let stR : ℚ :=
    match firstMatch storage_pred rows with
    | some r =>
      let storage_price := coerce_rate r.unitMonthly DEFAULT_STORAGE_RATE_PER_TB
      let desc := r.description.getD "nan"
      let s :=
        if containsCI desc "GB" ∧ storage_price < 50 then storage_price * 1024
        else storage_price
      coerce_rate (PyFloat.fin s) DEFAULT_STORAGE_RATE_PER_TB
    | none => DEFAULT_STORAGE_RATE_PER_TB
  let bwR : ℚ :=
    match firstMatch bandwidth_pred rows with
    | some r => coerce_rate r.unitMonthly DEFAULT_BANDWIDTH_RATE_PER_MBPS
    | none => DEFAULT_BANDWIDTH_RATE_PER_MBPS
  { vmRate := coerce_rate (PyFloat.fin vmR) DEFAULT_VM_RATE
    storageRatePerTB := coerce_rate (PyFloat.fin stR) DEFAULT_STORAGE_RATE_PER_TB
    bandwidthRatePerMbps :=
      coerce_rate (PyFloat.fin bwR) DEFAULT_BANDWIDTH_RATE_PER_MBPS }

/-- Per-submission usage quantities from the number inputs (all constrained
non-negative by the widgets; `vms` is an integer-valued input, embedded in ℚ). -/
structure UsageInput where
  vms : ℚ
  storageTB : ℚ
  bandwidthMbps : ℚ
  currentMonthlyCost : ℚ
deriving DecidableEq

/-- app.py line 500: the estimated LekaLink monthly cost. -/
def lekalink_cost (u : UsageInput) (rt : RateTable) : ℚ :=
  u.vms * rt.vmRate + u.storageTB * rt.storageRatePerTB +
    u.bandwidthMbps * rt.bandwidthRatePerMbps

/-- app.py line 501. -/
def monthly_savings (u : UsageInput) (rt : RateTable) : ℚ :=
  u.currentMonthlyCost - lekalink_cost u rt

/-- app.py line 502: guarded division, 0 when `current_cost` is not positive. -/
def percentage_savings (u : UsageInput) (rt : RateTable) : ℚ :=
  if 0 < u.currentMonthlyCost then
    monthly_savings u rt / u.currentMonthlyCost * 100
  else 0

structure QuoteResult where
  estimatedCost : ℚ
  monthlySavings : ℚ
  percentageSavings : ℚ
deriving DecidableEq

def computeQuote (u : UsageInput) (rt : RateTable) : QuoteResult :=
  { estimatedCost := lekalink_cost u rt
    monthlySavings := monthly_savings u rt
    percentageSavings := percentage_savings u rt }

/-- Python `'@' in email`: membership of a character in a string. -/
def charIn (ch : Char) (s : String) : Bool :=
  s.data.contains ch

/-- app.py `validate_inputs`, returning the accumulated error-message list.
Python truthiness of a string is exactly non-emptiness (a whitespace-only
string is truthy); `'@' not in email` is a character-membership test. -/
def validate_errors (company_name contact_name job_title email phone : String) :
    List String :=
  (if company_name = "" then ["Company Name is required."] else []) ++
  (if contact_name = "" then ["Contact Name is required."] else []) ++
  (if job_title = "" then ["Job Title is required."] else []) ++
  (if email = "" then ["Email is required."]
   else if charIn '@' email then []
   else ["Please enter a valid email address."]) ++
  (if phone = "" then ["Phone Number is required."] else [])

/-- app.py `validate_inputs` result: True exactly when no error was recorded. -/
def validate_inputs (company_name contact_name job_title email phone : String) :
    Bool :=
  (validate_errors company_name contact_name job_title email phone).isEmpty

/-- The submission handler (app.py lines 496-502): the quote is computed only
when validation passes; on failure no quote exists. -/
def submit_quote (company_name contact_name job_title email phone : String)
    (u : UsageInput) (rt : RateTable) : Option QuoteResult :=
  if validate_inputs company_name contact_name job_title email phone then
    some (computeQuote u rt)
  else none

/-! Concrete price-sheet rows used in examples and witnesses. -/

def gbRow : PriceSheetRow := ⟨some "vStorage (per GB)", .fin 2.5⟩

def gbRow900 : PriceSheetRow := ⟨some "Storage (per GB)", .fin 900⟩

def noMatchRow : PriceSheetRow := ⟨some "Licence Fee", .fin 10⟩

def vmRow : PriceSheetRow := ⟨some "Virtual Machine", .fin 100⟩

def vmRow2 : PriceSheetRow := ⟨some "VDC Allocation", .fin 111⟩

def stRow : PriceSheetRow := ⟨some "Storage Tier", .fin 200⟩

def bwRow : PriceSheetRow := ⟨some "Internet Bandwidth", .fin 7⟩

/-- A row set with a VM match and a storage match but no bandwidth match. -/
def exampleRows : List PriceSheetRow := [vmRow, stRow]

/-! Helper lemmas shared between the claim theorems. -/

lemma default_vm_nonneg : 0 ≤ DEFAULT_VM_RATE := by
  norm_num [DEFAULT_VM_RATE]

lemma default_storage_nonneg : 0 ≤ DEFAULT_STORAGE_RATE_PER_TB := by
  norm_num [DEFAULT_STORAGE_RATE_PER_TB]

lemma default_bandwidth_nonneg : 0 ≤ DEFAULT_BANDWIDTH_RATE_PER_MBPS := by
  norm_num [DEFAULT_BANDWIDTH_RATE_PER_MBPS]

lemma coerce_rate_nonneg (val : PyFloat) (dflt : ℚ) (hd : 0 ≤ dflt) :
    0 ≤ coerce_rate val dflt := by
  cases val with
  | fin v =>
    simp only [coerce_rate]
    split
    · assumption
    · exact hd
  | nan => exact hd
  | inf => exact hd
  | ninf => exact hd

lemma coerce_rate_fin_of_nonneg (x dflt : ℚ) (hx : 0 ≤ x) :
    coerce_rate (PyFloat.fin x) dflt = x := by
  simp [coerce_rate, hx]

lemma vmRate_of_some {rows : List PriceSheetRow} {r : PriceSheetRow}
    (h : firstMatch vm_pred rows = some r) :
    (resolveRates rows).vmRate = coerce_rate r.unitMonthly DEFAULT_VM_RATE := by
  simp only [resolveRates, h]
  exact coerce_rate_fin_of_nonneg _ _ (coerce_rate_nonneg _ _ default_vm_nonneg)

lemma vmRate_of_none {rows : List PriceSheetRow}
    (h : firstMatch vm_pred rows = none) :
    (resolveRates rows).vmRate = DEFAULT_VM_RATE := by
  simp only [resolveRates, h]
  exact coerce_rate_fin_of_nonneg _ _ default_vm_nonneg

lemma bwRate_of_some {rows : List PriceSheetRow} {r : PriceSheetRow}
    (h : firstMatch bandwidth_pred rows = some r) :
    (resolveRates rows).bandwidthRatePerMbps
      = coerce_rate r.unitMonthly DEFAULT_BANDWIDTH_RATE_PER_MBPS := by
  simp only [resolveRates, h]
  exact coerce_rate_fin_of_nonneg _ _
    (coerce_rate_nonneg _ _ default_bandwidth_nonneg)

lemma bwRate_of_none {rows : List PriceSheetRow}
    (h : firstMatch bandwidth_pred rows = none) :
    (resolveRates rows).bandwidthRatePerMbps = DEFAULT_BANDWIDTH_RATE_PER_MBPS := by
  simp only [resolveRates, h]
  exact coerce_rate_fin_of_nonneg _ _ default_bandwidth_nonneg

lemma stRate_of_some {rows : List PriceSheetRow} {r : PriceSheetRow}
    (h : firstMatch storage_pred rows = some r) :
    (resolveRates rows).storageRatePerTB =
      (if containsCI (r.description.getD "nan") "GB" = true ∧
          coerce_rate r.unitMonthly DEFAULT_STORAGE_RATE_PER_TB < 50 then
        coerce_rate r.unitMonthly DEFAULT_STORAGE_RATE_PER_TB * 1024
      else coerce_rate r.unitMonthly DEFAULT_STORAGE_RATE_PER_TB) := by
  have hp : 0 ≤ coerce_rate r.unitMonthly DEFAULT_STORAGE_RATE_PER_TB :=
    coerce_rate_nonneg _ _ default_storage_nonneg
  simp only [resolveRates, h]
  by_cases hc : containsCI (r.description.getD "nan") "GB" = true ∧
      coerce_rate r.unitMonthly DEFAULT_STORAGE_RATE_PER_TB < 50
  · rw [if_pos hc]
    have h1 : 0 ≤ coerce_rate r.unitMonthly DEFAULT_STORAGE_RATE_PER_TB * 1024 :=
      mul_nonneg hp (by norm_num)
    rw [coerce_rate_fin_of_nonneg _ _ h1]
    exact coerce_rate_fin_of_nonneg _ _ h1
  · rw [if_neg hc]
    rw [coerce_rate_fin_of_nonneg _ _ hp]
    exact coerce_rate_fin_of_nonneg _ _ hp

lemma stRate_of_none {rows : List PriceSheetRow}
    (h : firstMatch storage_pred rows = none) :
    (resolveRates rows).storageRatePerTB = DEFAULT_STORAGE_RATE_PER_TB := by
  simp only [resolveRates, h]
  exact coerce_rate_fin_of_nonneg _ _ default_storage_nonneg

lemma firstMatch_append_first (p : PriceSheetRow → Bool) :
    ∀ (pre : List PriceSheetRow) (r : PriceSheetRow) (post : List PriceSheetRow),
      (∀ x ∈ pre, p x = false) → p r = true →
      firstMatch p (pre ++ r :: post) = some r
  | [], r, post, _, hr => by
    simp [firstMatch, List.filter_cons, hr]
  | a :: as, r, post, hpre, hr => by
    have ha : p a = false := hpre a (List.mem_cons_self a as)
    have ih := firstMatch_append_first p as r post
      (fun x hx => hpre x (List.mem_cons_of_mem a hx)) hr
    simpa [firstMatch, List.filter_cons, ha] using ih

lemma mem_if_singleton {c : Prop} [Decidable c] {α : Type} {a x : α}
    (h : a ∈ (if c then [x] else ([] : List α))) : a = x := by
  by_cases hc : c
  · rw [if_pos hc] at h
    exact List.mem_singleton.mp h
  · rw [if_neg hc] at h
    exact absurd h (List.not_mem_nil a)

lemma validate_inputs_true_iff (c n j e p : String) :
    validate_inputs c n j e p = true ↔
      (¬c = "" ∧ ¬n = "" ∧ ¬j = "" ∧ ¬e = "" ∧ charIn '@' e = true ∧ ¬p = "") := by
  unfold validate_inputs validate_errors
  split_ifs <;> simp_all

/-! Claim theorems. -/

/-- Claim C1 (counterexample): with `vms=10, storageTB=2, bandwidthMbps=100`
and the default rates, the estimated cost is not 10133.30 as the claim
states (the weighted sum is 11134.30). -/
theorem estimatedCost_example_mismatch :
    lekalink_cost ⟨10, 2, 100, 0⟩ defaultRates ≠ 10133.30 := by
  norm_num [lekalink_cost, defaultRates, DEFAULT_VM_RATE,
    DEFAULT_STORAGE_RATE_PER_TB, DEFAULT_BANDWIDTH_RATE_PER_MBPS]

/-- Claim C1 (amended): for every usage input with non-negative
`vms, storageTB, bandwidthMbps` and every `RateTable`, the estimated cost
equals exactly `vms*vmRate + storageTB*storageRatePerTB +
bandwidthMbps*bandwidthRatePerMbps` with no rounding; the example
`vms=10, storageTB=2, bandwidthMbps=100` under default rates yields
11134.30 (not 10133.30 as the spec states). -/
theorem estimatedCost_weighted_sum :
    (∀ (u : UsageInput) (rt : RateTable),
        0 ≤ u.vms → 0 ≤ u.storageTB → 0 ≤ u.bandwidthMbps →
        lekalink_cost u rt =
          u.vms * rt.vmRate + u.storageTB * rt.storageRatePerTB +
            u.bandwidthMbps * rt.bandwidthRatePerMbps) ∧
    lekalink_cost ⟨10, 2, 100, 0⟩ defaultRates = 11134.30 := by
  constructor
  · intro u rt _ _ _
    rfl
  · norm_num [lekalink_cost, defaultRates, DEFAULT_VM_RATE,
      DEFAULT_STORAGE_RATE_PER_TB, DEFAULT_BANDWIDTH_RATE_PER_MBPS]

/-- Witness for C1: the weighted-sum equation instantiated at the spec's
example input. -/
theorem estimatedCost_weighted_sum_witness :
    lekalink_cost ⟨10, 2, 100, 0⟩ defaultRates =
      (10 : ℚ) * defaultRates.vmRate + 2 * defaultRates.storageRatePerTB +
        100 * defaultRates.bandwidthRatePerMbps :=
  estimatedCost_weighted_sum.1 ⟨10, 2, 100, 0⟩ defaultRates
    (by norm_num) (by norm_num) (by norm_num)

/-- Claim C2: the rate resolver is total — it is a function defined on every
row list (rows may have absent descriptions and NaN/infinite/negative values),
and every field of the returned table is a rational (hence finite, never NaN,
never absent) and non-negative. -/
theorem resolveRates_total_nonneg :
    ∀ rows : List PriceSheetRow,
      0 ≤ (resolveRates rows).vmRate ∧
      0 ≤ (resolveRates rows).storageRatePerTB ∧
      0 ≤ (resolveRates rows).bandwidthRatePerMbps := by
  intro rows
  refine ⟨?_, ?_, ?_⟩
  · simp only [resolveRates]
    exact coerce_rate_nonneg _ _ default_vm_nonneg
  · simp only [resolveRates]
    exact coerce_rate_nonneg _ _ default_storage_nonneg
  · simp only [resolveRates]
    exact coerce_rate_nonneg _ _ default_bandwidth_nonneg

/-- Claim C3: when `currentMonthlyCost = 0` the percentage savings is 0 for
any estimated cost; the guarded branch never divides by the zero cost. -/
theorem percentage_savings_zero_of_zero_cost :
    ∀ (u : UsageInput) (rt : RateTable),
      u.currentMonthlyCost = 0 → percentage_savings u rt = 0 := by
  intro u rt h
  simp [percentage_savings, h]

/-- Witness for C3 at a concrete input with a positive estimated cost. -/
theorem percentage_savings_zero_witness :
    percentage_savings ⟨10, 2, 100, 0⟩ defaultRates = 0 :=
  percentage_savings_zero_of_zero_cost ⟨10, 2, 100, 0⟩ defaultRates rfl

/-- Claim C4 (counterexample): at `currentMonthlyCost = 0` with a positive
estimated cost, `monthlySavings` is negative while `percentageSavings` is 0,
so their signs do not match — refuting the claim that the signs always match
"including currentMonthlyCost = 0". -/
theorem savings_sign_mismatch_at_zero_cost :
    monthly_savings ⟨1, 1, 1, 0⟩ defaultRates < 0 ∧
      percentage_savings ⟨1, 1, 1, 0⟩ defaultRates = 0 := by
  constructor
  · norm_num [monthly_savings, lekalink_cost, defaultRates, DEFAULT_VM_RATE,
      DEFAULT_STORAGE_RATE_PER_TB, DEFAULT_BANDWIDTH_RATE_PER_MBPS]
  · norm_num [percentage_savings]

/-- Claim C4 (amended): whenever `currentMonthlyCost > 0`, the signs of
`monthlySavings` and `percentageSavings` match (both positive, both zero, or
both negative). At `currentMonthlyCost = 0` the percentage is 0 regardless of
the sign of `monthlySavings`. -/
theorem savings_signs_match_of_pos_cost :
    ∀ (u : UsageInput) (rt : RateTable), 0 < u.currentMonthlyCost →
      ((0 < monthly_savings u rt ↔ 0 < percentage_savings u rt) ∧
       (monthly_savings u rt = 0 ↔ percentage_savings u rt = 0) ∧
       (monthly_savings u rt < 0 ↔ percentage_savings u rt < 0)) := by
  intro u rt hc
  have hps : percentage_savings u rt =
      monthly_savings u rt / u.currentMonthlyCost * 100 := by
    simp [percentage_savings, hc]
  rw [hps]
  have hpos : 0 < monthly_savings u rt →
      0 < monthly_savings u rt / u.currentMonthlyCost * 100 := fun h =>
    mul_pos (div_pos h hc) (by norm_num)
  have hzero : monthly_savings u rt = 0 →
      monthly_savings u rt / u.currentMonthlyCost * 100 = 0 := fun h => by
    rw [h]
    simp
  have hneg : monthly_savings u rt < 0 →
      monthly_savings u rt / u.currentMonthlyCost * 100 < 0 := fun h =>
    mul_neg_of_neg_of_pos (div_neg_of_neg_of_pos h hc) (by norm_num)
  refine ⟨⟨hpos, fun h => ?_⟩, ⟨hzero, fun h => ?_⟩, ⟨hneg, fun h => ?_⟩⟩
  · rcases lt_trichotomy (monthly_savings u rt) 0 with h1 | h1 | h1
    · exact absurd h (by linarith [hneg h1])
    · exact absurd h (by rw [hzero h1]; exact lt_irrefl 0)
    · exact h1
  · rcases lt_trichotomy (monthly_savings u rt) 0 with h1 | h1 | h1
    · exact absurd h (by linarith [hneg h1])
    · exact h1
    · exact absurd h (by linarith [hpos h1])
  · rcases lt_trichotomy (monthly_savings u rt) 0 with h1 | h1 | h1
    · exact h1
    · exact absurd h (by rw [hzero h1]; exact lt_irrefl 0)
    · exact absurd h (by linarith [hpos h1])

/-- Witness for C4 (amended) at a concrete positive-cost input. -/
theorem savings_signs_match_witness :
    (0 < monthly_savings ⟨0, 0, 0, 100⟩ defaultRates ↔
      0 < percentage_savings ⟨0, 0, 0, 100⟩ defaultRates) ∧
    (monthly_savings ⟨0, 0, 0, 100⟩ defaultRates = 0 ↔
      percentage_savings ⟨0, 0, 0, 100⟩ defaultRates = 0) ∧
    (monthly_savings ⟨0, 0, 0, 100⟩ defaultRates < 0 ↔
      percentage_savings ⟨0, 0, 0, 100⟩ defaultRates < 0) :=
  savings_signs_match_of_pos_cost ⟨0, 0, 0, 100⟩ defaultRates
    (by norm_num)

/-- Claim C5: `monthlySavings` is exactly `currentMonthlyCost` minus the
estimated cost for every input — the same unbranched subtraction also when
the result is negative (witnessed by the second conjunct). -/
theorem monthly_savings_exact :
    (∀ (u : UsageInput) (rt : RateTable),
        monthly_savings u rt = u.currentMonthlyCost - lekalink_cost u rt) ∧
      monthly_savings ⟨1, 0, 0, 0⟩ defaultRates < 0 := by
  constructor
  · intro u rt
    rfl
  · norm_num [monthly_savings, lekalink_cost, defaultRates, DEFAULT_VM_RATE,
      DEFAULT_STORAGE_RATE_PER_TB, DEFAULT_BANDWIDTH_RATE_PER_MBPS]

/-- Claim C6: when the selected storage row's description contains "GB"
(case-insensitive) and the coerced value is below 50, the resolved storage
rate is that value times 1024, otherwise the coerced value unchanged; in
particular description "vStorage (per GB)" with value 2.5 resolves to 2560,
and value 900 with a "GB" description resolves to 900. -/
theorem storage_gb_correction :
    (∀ (rows : List PriceSheetRow) (r : PriceSheetRow),
        firstMatch storage_pred rows = some r →
        ((containsCI (r.description.getD "nan") "GB" = true ∧
            coerce_rate r.unitMonthly DEFAULT_STORAGE_RATE_PER_TB < 50 →
          (resolveRates rows).storageRatePerTB =
            coerce_rate r.unitMonthly DEFAULT_STORAGE_RATE_PER_TB * 1024) ∧
         (¬(containsCI (r.description.getD "nan") "GB" = true ∧
              coerce_rate r.unitMonthly DEFAULT_STORAGE_RATE_PER_TB < 50) →
          (resolveRates rows).storageRatePerTB =
            coerce_rate r.unitMonthly DEFAULT_STORAGE_RATE_PER_TB))) ∧
    (resolveRates [gbRow]).storageRatePerTB = 2560 ∧
    (resolveRates [gbRow900]).storageRatePerTB = 900 := by
  have main : ∀ (rows : List PriceSheetRow) (r : PriceSheetRow),
      firstMatch storage_pred rows = some r →
      ((containsCI (r.description.getD "nan") "GB" = true ∧
          coerce_rate r.unitMonthly DEFAULT_STORAGE_RATE_PER_TB < 50 →
        (resolveRates rows).storageRatePerTB =
          coerce_rate r.unitMonthly DEFAULT_STORAGE_RATE_PER_TB * 1024) ∧
       (¬(containsCI (r.description.getD "nan") "GB" = true ∧
            coerce_rate r.unitMonthly DEFAULT_STORAGE_RATE_PER_TB < 50) →
        (resolveRates rows).storageRatePerTB =
          coerce_rate r.unitMonthly DEFAULT_STORAGE_RATE_PER_TB)) := by
    intro rows r h
    constructor
    · intro hc
      rw [stRate_of_some h, if_pos hc]
    · intro hc
      rw [stRate_of_some h, if_neg hc]
  refine ⟨main, ?_, ?_⟩
  · have hp : storage_pred gbRow = true := by decide
    have h1 : firstMatch storage_pred [gbRow] = some gbRow := by
      simp only [firstMatch, List.filter, hp, List.head?]
    have hval : coerce_rate gbRow.unitMonthly DEFAULT_STORAGE_RATE_PER_TB
        = 2.5 := by
      norm_num [gbRow, coerce_rate]
    have := (main [gbRow] gbRow h1).1
      ⟨by decide, by rw [hval]; norm_num⟩
    rw [this, hval]
    norm_num
  · have hp : storage_pred gbRow900 = true := by decide
    have h1 : firstMatch storage_pred [gbRow900] = some gbRow900 := by
      simp only [firstMatch, List.filter, hp, List.head?]
    have hval : coerce_rate gbRow900.unitMonthly DEFAULT_STORAGE_RATE_PER_TB
        = 900 := by
      norm_num [gbRow900, coerce_rate]
    have := (main [gbRow900] gbRow900 h1).2
      (by rw [hval]; rintro ⟨_, hlt⟩; norm_num at hlt)
    rw [this, hval]

/-- Witness for C6: the general GB-correction rule applied at the concrete
2.5-per-GB storage row. -/
theorem storage_gb_correction_witness :
    (resolveRates [⟨some "vStorage (per GB)", PyFloat.fin 2.5⟩]).storageRatePerTB
      = coerce_rate (PyFloat.fin 2.5) DEFAULT_STORAGE_RATE_PER_TB * 1024 :=
  (storage_gb_correction.1 [gbRow] gbRow
      (by
        have hp : storage_pred gbRow = true := by decide
        simp only [firstMatch, List.filter, hp, List.head?])).1
    ⟨by decide, by norm_num [gbRow, coerce_rate]⟩

/-- Claim C7: per category the resolver selects the first row in original
order that is valid (numeric Unit Monthly) and matches a keyword; any earlier
non-matching rows are skipped and later matching rows are ignored. -/
theorem resolver_first_match_wins :
    (∀ (pre post : List PriceSheetRow) (r : PriceSheetRow),
        (∀ x ∈ pre, vm_pred x = false) → vm_pred r = true →
        firstMatch vm_pred (pre ++ r :: post) = some r) ∧
    (∀ (pre post : List PriceSheetRow) (r : PriceSheetRow),
        (∀ x ∈ pre, storage_pred x = false) → storage_pred r = true →
        firstMatch storage_pred (pre ++ r :: post) = some r) ∧
    (∀ (pre post : List PriceSheetRow) (r : PriceSheetRow),
        (∀ x ∈ pre, bandwidth_pred x = false) → bandwidth_pred r = true →
        firstMatch bandwidth_pred (pre ++ r :: post) = some r) :=
  ⟨fun pre post r h1 h2 => firstMatch_append_first vm_pred pre r post h1 h2,
   fun pre post r h1 h2 => firstMatch_append_first storage_pred pre r post h1 h2,
   fun pre post r h1 h2 => firstMatch_append_first bandwidth_pred pre r post h1 h2⟩

/-- Witness for C7: concrete row lists where a non-matching row precedes the
match and a second matching row follows it. -/
theorem resolver_first_match_wins_witness :
    firstMatch vm_pred ([noMatchRow] ++ vmRow :: [vmRow2]) = some vmRow ∧
    firstMatch storage_pred ([noMatchRow] ++ stRow :: []) = some stRow ∧
    firstMatch bandwidth_pred ([vmRow] ++ bwRow :: []) = some bwRow :=
  ⟨resolver_first_match_wins.1 [noMatchRow] [vmRow2] vmRow
      (by decide) (by decide),
   resolver_first_match_wins.2.1 [noMatchRow] [] stRow
      (by decide) (by decide),
   resolver_first_match_wins.2.2 [vmRow] [] bwRow
      (by decide) (by decide)⟩

/-- Claim C8: fallback is per-category and independent — a missing or
non-coercible bandwidth match yields the bandwidth default only, each
category's rate depends only on its own first match, and the concrete row set
with VM and storage matches but no bandwidth match resolves to (100, 200,
default bandwidth). -/
theorem per_category_fallback :
    (∀ rows : List PriceSheetRow, firstMatch bandwidth_pred rows = none →
        (resolveRates rows).bandwidthRatePerMbps
          = DEFAULT_BANDWIDTH_RATE_PER_MBPS) ∧
    (∀ (rows : List PriceSheetRow) (r : PriceSheetRow),
        firstMatch bandwidth_pred rows = some r →
        (∀ q : ℚ, r.unitMonthly = PyFloat.fin q → q < 0) →
        (resolveRates rows).bandwidthRatePerMbps
          = DEFAULT_BANDWIDTH_RATE_PER_MBPS) ∧
    (∀ rows rows' : List PriceSheetRow,
        firstMatch vm_pred rows = firstMatch vm_pred rows' →
        (resolveRates rows).vmRate = (resolveRates rows').vmRate) ∧
    (∀ rows rows' : List PriceSheetRow,
        firstMatch storage_pred rows = firstMatch storage_pred rows' →
        (resolveRates rows).storageRatePerTB
          = (resolveRates rows').storageRatePerTB) ∧
    ((resolveRates exampleRows).vmRate = 100 ∧
     (resolveRates exampleRows).storageRatePerTB = 200 ∧
     (resolveRates exampleRows).bandwidthRatePerMbps
       = DEFAULT_BANDWIDTH_RATE_PER_MBPS) := by
  refine ⟨?_, ?_, ?_, ?_, ?_, ?_, ?_⟩
  · intro rows h
    exact bwRate_of_none h
  · intro rows r h hneg
    rw [bwRate_of_some h]
    cases hum : r.unitMonthly with
    | fin q =>
      have : q < 0 := hneg q hum
      simp [coerce_rate, not_le.mpr this]
    | nan => simp [coerce_rate]
    | inf => simp [coerce_rate]
    | ninf => simp [coerce_rate]
  · intro rows rows' h
    simp only [resolveRates, h]
  · intro rows rows' h
    simp only [resolveRates, h]
  · have hvm : vm_pred vmRow = true := by decide
    have h1 : firstMatch vm_pred exampleRows = some vmRow := by
      simp only [exampleRows, firstMatch, List.filter, hvm, List.head?]
    rw [vmRate_of_some h1]
    norm_num [vmRow, coerce_rate]
  · have hvm : storage_pred vmRow = false := by decide
    have hst : storage_pred stRow = true := by decide
    have h1 : firstMatch storage_pred exampleRows = some stRow := by
      simp only [exampleRows, firstMatch, List.filter, hvm, hst, List.head?]
    rw [stRate_of_some h1]
    have hng : ¬(containsCI (stRow.description.getD "nan") "GB" = true ∧
        coerce_rate stRow.unitMonthly DEFAULT_STORAGE_RATE_PER_TB < 50) := by
      rintro ⟨hgb, _⟩
      exact absurd hgb (by decide)
    rw [if_neg hng]
    norm_num [stRow, coerce_rate]
  · have h1 : firstMatch bandwidth_pred exampleRows = none := by decide
    exact bwRate_of_none h1

/-- Witness for C8: the no-bandwidth-match fallback applied at the concrete
example row set. -/
theorem per_category_fallback_witness :
    (resolveRates exampleRows).bandwidthRatePerMbps
      = DEFAULT_BANDWIDTH_RATE_PER_MBPS :=
  per_category_fallback.1 exampleRows (by decide)

/-- Claim C9: validation is fail-closed — any empty contact field or an email
without "@" makes validation fail with a field-specific message and no quote
is computed; with all five fields non-empty and "@" in the email, validation
passes and the quote is computed. -/
theorem validation_fail_closed :
    ∀ (c n j e p : String) (u : UsageInput) (rt : RateTable),
      ((c = "" ∨ n = "" ∨ j = "" ∨ e = "" ∨ p = "" ∨ charIn '@' e = false) →
        validate_inputs c n j e p = false ∧ submit_quote c n j e p u rt = none) ∧
      (c = "" → "Company Name is required." ∈ validate_errors c n j e p) ∧
      (n = "" → "Contact Name is required." ∈ validate_errors c n j e p) ∧
      (j = "" → "Job Title is required." ∈ validate_errors c n j e p) ∧
      (e = "" → "Email is required." ∈ validate_errors c n j e p) ∧
      (e ≠ "" → charIn '@' e = false →
        "Please enter a valid email address." ∈ validate_errors c n j e p) ∧
      (p = "" → "Phone Number is required." ∈ validate_errors c n j e p) ∧
      (c ≠ "" → n ≠ "" → j ≠ "" → e ≠ "" → p ≠ "" → charIn '@' e = true →
        validate_inputs c n j e p = true ∧
          submit_quote c n j e p u rt = some (computeQuote u rt)) := by
  intro c n j e p u rt
  refine ⟨?_, ?_, ?_, ?_, ?_, ?_, ?_, ?_⟩
  · intro hdis
    have hfail : validate_inputs c n j e p = false := by
      cases hb : validate_inputs c n j e p with
      | false => rfl
      | true =>
        have hall := (validate_inputs_true_iff c n j e p).mp hb
        rcases hdis with h | h | h | h | h | h
        · exact absurd h hall.1
        · exact absurd h hall.2.1
        · exact absurd h hall.2.2.1
        · exact absurd h hall.2.2.2.1
        · exact absurd h hall.2.2.2.2.2
        · have : (true : Bool) = false := hall.2.2.2.2.1.symm.trans h
          exact Bool.noConfusion this
    refine ⟨hfail, ?_⟩
    simp [submit_quote, hfail]
  · intro h
    unfold validate_errors
    refine List.mem_append_left _ (List.mem_append_left _
      (List.mem_append_left _ (List.mem_append_left _ ?_)))
    rw [if_pos h]
    exact List.mem_cons_self _ _
  · intro h
    unfold validate_errors
    refine List.mem_append_left _ (List.mem_append_left _
      (List.mem_append_left _ (List.mem_append_right _ ?_)))
    rw [if_pos h]
    exact List.mem_cons_self _ _
  · intro h
    unfold validate_errors
    refine List.mem_append_left _ (List.mem_append_left _
      (List.mem_append_right _ ?_))
    rw [if_pos h]
    exact List.mem_cons_self _ _
  · intro h
    unfold validate_errors
    refine List.mem_append_left _ (List.mem_append_right _ ?_)
    rw [if_pos h]
    exact List.mem_cons_self _ _
  · intro h1 h2
    have h2' : ¬(charIn '@' e = true) := by
      rw [h2]
      exact Bool.false_ne_true
    unfold validate_errors
    refine List.mem_append_left _ (List.mem_append_right _ ?_)
    rw [if_neg h1, if_neg h2']
    exact List.mem_cons_self _ _
  · intro h
    unfold validate_errors
    refine List.mem_append_right _ ?_
    rw [if_pos h]
    exact List.mem_cons_self _ _
  · intro h1 h2 h3 h4 h5 h6
    have hv : validate_inputs c n j e p = true :=
      (validate_inputs_true_iff c n j e p).mpr ⟨h1, h2, h3, h4, h6, h5⟩
    refine ⟨hv, ?_⟩
    simp [submit_quote, hv]

/-- Witness for C9: an empty company name blocks the quote, concretely. -/
theorem validation_fail_closed_witness :
    validate_inputs "" "Ada" "CTO" "a@b.c" "123" = false ∧
      submit_quote "" "Ada" "CTO" "a@b.c" "123" ⟨0, 0, 0, 0⟩ defaultRates
        = none :=
  (validation_fail_closed "" "Ada" "CTO" "a@b.c" "123" ⟨0, 0, 0, 0⟩
      defaultRates).1 (Or.inl rfl)

/-- Claim C10: presence is plain non-emptiness (whitespace-only fields count
as present), so any five non-empty fields with "@" in the email pass
validation and produce a quote; and an empty email yields only the
"Email is required." message, never the format message. -/
theorem whitespace_presence_and_email_check :
    (∀ (c n j e p : String) (u : UsageInput) (rt : RateTable),
        c ≠ "" → n ≠ "" → j ≠ "" → e ≠ "" → p ≠ "" → charIn '@' e = true →
        validate_inputs c n j e p = true ∧
          submit_quote c n j e p u rt = some (computeQuote u rt)) ∧
    (∀ c n j p : String,
        "Email is required." ∈ validate_errors c n j "" p ∧
        "Please enter a valid email address." ∉ validate_errors c n j "" p) := by
  constructor
  · intro c n j e p u rt h1 h2 h3 h4 h5 h6
    have hv : validate_inputs c n j e p = true :=
      (validate_inputs_true_iff c n j e p).mpr ⟨h1, h2, h3, h4, h6, h5⟩
    refine ⟨hv, ?_⟩
    simp [submit_quote, hv]
  · intro c n j p
    constructor
    · unfold validate_errors
      refine List.mem_append_left _ (List.mem_append_right _ ?_)
      rw [if_pos rfl]
      exact List.mem_cons_self _ _
    · intro hmem
      unfold validate_errors at hmem
      rw [if_pos rfl] at hmem
      rcases List.mem_append.mp hmem with hm | hm
      · rcases List.mem_append.mp hm with hm2 | hm2
        · rcases List.mem_append.mp hm2 with hm3 | hm3
          · rcases List.mem_append.mp hm3 with hm4 | hm4
            · exact absurd (mem_if_singleton hm4) (by decide)
            · exact absurd (mem_if_singleton hm4) (by decide)
          · exact absurd (mem_if_singleton hm3) (by decide)
        · exact absurd (List.mem_singleton.mp hm2) (by decide)
      · exact absurd (mem_if_singleton hm) (by decide)

/-- Witness for C10: whitespace-only contact fields pass validation and the
quote is computed. -/
theorem whitespace_presence_witness :
    validate_inputs " " " " " " " @ " " " = true ∧
      submit_quote " " " " " " " @ " " " ⟨0, 0, 0, 0⟩ defaultRates
        = some (computeQuote ⟨0, 0, 0, 0⟩ defaultRates) :=
  whitespace_presence_and_email_check.1 " " " " " " " @ " " " ⟨0, 0, 0, 0⟩
    defaultRates (by decide) (by decide) (by decide) (by decide) (by decide)
    (by decide)
